import Mathlib

/-!
Verification of the boxing match engine: a shallow embedding of
`boxing/models/boxers_model.py`, `boxing/models/ring_model.py` and
`boxing/utils/api_utils.py`, followed by theorems settling the
specification claims about weight classes, stat updates, the leaderboard,
the ring state machine, the random source and fight resolution.

Python `int` is modelled as `ℤ`, Python `float` as `ℚ` for the exactly
representable arithmetic of the skill formula (with `ℝ` and `Real.exp` for
the logistic win probability), raised exceptions as an explicit
`Except PyError` result, and the SQLite `boxers` table as a list of rows.
-/

namespace Boxing

/-- Python exception values raised by the modelled code, tagged with the
Python exception class and carrying the message string. -/
inductive PyError : Type where
  | valueError (msg : String) : PyError
  | runtimeError (msg : String) : PyError
  | typeError (msg : String) : PyError
deriving DecidableEq, Repr

/-- The Python class name of a raised exception, the "error kind" visible to
a caller that matches on exception type. -/
def PyError.className : PyError → String
  | .valueError _ => "ValueError"
  | .runtimeError _ => "RuntimeError"
  | .typeError _ => "TypeError"

/-- The message carried by a raised exception. -/
def PyError.message : PyError → String
  | .valueError m => m
  | .runtimeError m => m
  | .typeError m => m

/-- `get_weight_class(weight)` from `boxers_model.py`: the four threshold
branches, highest first, raising `ValueError` below 125. -/
def get_weight_class (weight : ℤ) : Except PyError String :=
  if 203 ≤ weight then .ok "HEAVYWEIGHT"
  else if 166 ≤ weight then .ok "MIDDLEWEIGHT"
  else if 133 ≤ weight then .ok "LIGHTWEIGHT"
  else if 125 ≤ weight then .ok "FEATHERWEIGHT"
  else .error (.valueError
    ("Invalid weight: " ++ toString weight ++ ". Weight must be at least 125."))

/-- The `Boxer` dataclass of `boxers_model.py`.  Its `__post_init__` assigns
`weight_class` from `weight`; the smart constructor `Boxer.make` below models
that. -/
structure Boxer : Type where
  id : ℤ
  name : String
  weight : ℤ
  height : ℤ
  reach : ℚ
  age : ℤ
  weight_class : String
deriving DecidableEq, Repr

/-- Constructing a `Boxer` runs `__post_init__`, which computes
`weight_class` via `get_weight_class` (and hence raises on weight < 125). -/
def Boxer.make (id : ℤ) (name : String) (weight : ℤ) (height : ℤ)
    (reach : ℚ) (age : ℤ) : Except PyError Boxer := do
  let wc ← get_weight_class weight
  .ok ⟨id, name, weight, height, reach, age, wc⟩

/-- One row of the SQLite `boxers` table:
`(id, name, weight, height, reach, age, fights, wins)`. -/
structure BoxerRow : Type where
  id : ℤ
  name : String
  weight : ℤ
  height : ℤ
  reach : ℚ
  age : ℤ
  fights : ℤ
  wins : ℤ
deriving DecidableEq, Repr

/-- The `boxers` table, as the list of its rows. -/
abbrev Store := List BoxerRow

/-- `RingModel.get_fighting_skill(boxer)`:
`weight * len(name) + reach / 10 + age_modifier`, where the age modifier is
`-1` for age < 25, `-2` for age > 35, else `0`. -/
def get_fighting_skill (boxer : Boxer) : ℚ :=
  let age_modifier : ℚ := if boxer.age < 25 then -1 else if 35 < boxer.age then -2 else 0
  boxer.weight * boxer.name.length + boxer.reach / 10 + age_modifier

/-- Whether the `SELECT id FROM boxers WHERE id = ?` lookup finds a row. -/
def hasBoxer (store : Store) (boxer_id : ℤ) : Bool :=
  store.any (fun row => row.id == boxer_id)

/-- The effect of `UPDATE boxers SET fights = fights + 1, wins = wins + 1
WHERE id = ?`. -/
def bumpWin (boxer_id : ℤ) (row : BoxerRow) : BoxerRow :=
  if row.id = boxer_id then { row with fights := row.fights + 1, wins := row.wins + 1 }
  else row

/-- The effect of `UPDATE boxers SET fights = fights + 1 WHERE id = ?`. -/
def bumpLoss (boxer_id : ℤ) (row : BoxerRow) : BoxerRow :=
  if row.id = boxer_id then { row with fights := row.fights + 1 }
  else row

/-- `update_boxer_stats(boxer_id, result)` from `boxers_model.py`: rejects a
result outside {win, loss} with `ValueError`, raises `ValueError` when no row
has the id, otherwise runs the corresponding `UPDATE` and commits. -/
def update_boxer_stats (store : Store) (boxer_id : ℤ) (result : String) :
    Except PyError Store :=
  if result ≠ "win" ∧ result ≠ "loss" then
    .error (.valueError
      ("Invalid result: " ++ result ++ ". Expected \x27win\x27 or \x27loss\x27."))
  else if ¬ hasBoxer store boxer_id then
    .error (.valueError ("Boxer with ID " ++ toString boxer_id ++ " not found."))
  else if result = "win" then
    .ok (store.map (bumpWin boxer_id))
  else
    .ok (store.map (bumpLoss boxer_id))

/-- The `win_pct` column computed by the leaderboard query:
`wins * 1.0 / fights`. -/
def win_pct_exact (row : BoxerRow) : ℚ :=
  row.wins / row.fights

/-- The `ORDER BY` key of the leaderboard query for the given `sort_by`. -/
def lbKey (sort_by : String) (row : BoxerRow) : ℚ :=
  if sort_by = "win_pct" then win_pct_exact row else (row.wins : ℚ)

/-- Python `round(x, 1)`: round to one decimal place. -/
def round1 (q : ℚ) : ℚ :=
  (round (q * 10) : ℤ) / 10

/-- One leaderboard dictionary, as built in the `for row in rows` loop of
`get_leaderboard`. -/
structure LBEntry : Type where
  id : ℤ
  name : String
  weight : ℤ
  height : ℤ
  reach : ℚ
  age : ℤ
  weight_class : String
  fights : ℤ
  wins : ℤ
  win_pct : ℚ
deriving DecidableEq, Repr

/-- Builds one leaderboard dictionary from a row: `weight_class` is
recomputed via `get_weight_class` (which can raise) and `win_pct` is the
query's ratio converted to a percentage and rounded to one decimal. -/
def mkLBEntry (row : BoxerRow) : Except PyError LBEntry := do
  let wc ← get_weight_class row.weight
  .ok ⟨row.id, row.name, row.weight, row.height, row.reach, row.age, wc,
       row.fights, row.wins, round1 (win_pct_exact row * 100)⟩

/-- `get_leaderboard(sort_by)` from `boxers_model.py`: rejects an unknown
`sort_by` with `ValueError` before touching the database, then selects the
rows with `fights > 0`, sorts them descending by the chosen key, and maps
each row to its dictionary. -/
def get_leaderboard (store : Store) (sort_by : String) :
    Except PyError (List LBEntry) :=
  if sort_by ≠ "win_pct" ∧ sort_by ≠ "wins" then
    .error (.valueError ("Invalid sort_by parameter: " ++ sort_by))
  else
    let rows := (store.filter (fun r => 0 < r.fights)).mergeSort
      (fun a b => decide (lbKey sort_by b ≤ lbKey sort_by a))
    rows.mapM mkLBEntry

/-- The outcome of the HTTP GET performed by `get_random`, as seen by the
surrounding `try` blocks: a timeout, some other transport failure
(`requests.exceptions.RequestException`, including the `HTTPError` from
`raise_for_status`), or a response body. -/
inductive RequestResult : Type where
  | timeout : RequestResult
  | requestError (msg : String) : RequestResult
  | success (body : String) : RequestResult
deriving DecidableEq, Repr

/-- `get_random()` from `api_utils.py`, parametrised by the semantics
`float_of_string` of the Python `float(...)` conversion (`none` models a
`ValueError` from the conversion): strips the body, converts it, and maps
each failure to the exception the code raises. -/
def get_random (float_of_string : String → Option ℚ) (resp : RequestResult) :
    Except PyError ℚ :=
  match resp with
  | .timeout => .error (.runtimeError "Request to random.org timed out.")
  | .requestError e => .error (.runtimeError ("Request to random.org failed: " ++ e))
  | .success body =>
      let random_number_str := body.trim
      match float_of_string random_number_str with
      | some x => .ok x
      | none => .error (.valueError
          ("Invalid response from random.org: " ++ random_number_str))

/-- `normalized_delta` inside `RingModel.fight`: the logistic win
probability `1 / (1 + e^(-delta))`. -/
noncomputable def normalized_delta (delta : ℚ) : ℝ :=
  1 / (1 + Real.exp (-(delta : ℝ)))

/-- `RingModel.enter_ring(boxer)`: raises `ValueError` when the ring already
holds two boxers, else appends.  (The `isinstance` guard of the source always
passes in this typed embedding.) -/
def enter_ring (ring : List Boxer) (boxer : Boxer) : Except PyError (List Boxer) :=
  if 2 ≤ ring.length then
    .error (.valueError "Ring is full, cannot add more boxers.")
  else
    .ok (ring ++ [boxer])

/-- `RingModel.clear_ring()`: empties the ring. -/
def clear_ring (_ring : List Boxer) : List Boxer := []

/-- `RingModel.get_boxers()`: returns the ring contents in entry order. -/
def get_boxers (ring : List Boxer) : List Boxer := ring

/-- `RingModel.fight()` from `ring_model.py`, parametrised by the outcome
`rng` of the `get_random()` call.  Returns the raised exception or the
winner's name, together with the resulting store and ring.  Mirrors the
source order: the two-boxers guard, the tuple unpacking of `get_boxers()`,
the skill and probability computation, the random draw, winner selection by
`random_number < normalized_delta`, the win update then the loss update,
and finally `clear_ring()`. -/
noncomputable def fight (ring : List Boxer) (store : Store)
    (rng : Except PyError ℚ) : Except PyError String × Store × List Boxer :=
  if ring.length < 2 then
    (.error (.valueError "There must be two boxers to start a fight."), store, ring)
  else
    match ring with
    | [boxer_1, boxer_2] =>
        let skill_1 := get_fighting_skill boxer_1
        let skill_2 := get_fighting_skill boxer_2
        let delta := |skill_1 - skill_2|
        match rng with
        | .error e => (.error e, store, ring)
        | .ok random_number =>
            let wl : Boxer × Boxer :=
              if ((random_number : ℝ) < normalized_delta delta : Prop) then
                (boxer_1, boxer_2)
              else
                (boxer_2, boxer_1)
            match update_boxer_stats store wl.1.id "win" with
            | .error e => (.error e, store, ring)
            | .ok s1 =>
                match update_boxer_stats s1 wl.2.id "loss" with
                | .error e => (.error e, s1, ring)
                | .ok s2 => (.ok wl.1.name, s2, clear_ring ring)
    | _ =>
        (.error (.valueError "too many values to unpack (expected 2)"), store, ring)

/-! Concrete sample data used by witnesses and counterexamples: the Ali and
Tyson boxers of the spec scenario, a same-skill sparring partner, and a small
store holding their table rows. -/

/-- The scenario boxer Ali: weight 200, height 70, reach 74, age 28. -/
def aliB : Boxer := ⟨1, "Ali", 200, 70, 74, 28, "MIDDLEWEIGHT"⟩

/-- The scenario boxer Tyson: weight 220, height 71, reach 71, age 25. -/
def tysonB : Boxer := ⟨2, "Tyson", 220, 71, 71, 25, "HEAVYWEIGHT"⟩

/-- A boxer with the same fighting skill as Ali (same weight, name length,
reach and age bracket) but a different id and name. -/
def bobB : Boxer := ⟨2, "Bob", 200, 70, 74, 28, "MIDDLEWEIGHT"⟩

/-- Ali's table row. -/
def aliRow : BoxerRow := ⟨1, "Ali", 200, 70, 74, 28, 3, 2⟩

/-- Tyson's table row. -/
def tysonRow : BoxerRow := ⟨2, "Tyson", 220, 71, 71, 25, 1, 1⟩

/-- A two-row store holding Ali and Tyson. -/
def demoStore : Store := [aliRow, tysonRow]

/-- Claim C6: the weight-class thresholds.  `get_weight_class` answers
HEAVYWEIGHT iff weight ≥ 203, MIDDLEWEIGHT iff 166 ≤ weight < 203,
LIGHTWEIGHT iff 133 ≤ weight < 166, FEATHERWEIGHT iff 125 ≤ weight < 133,
and raises (the code's `ValueError`, the spec's ValidationError) exactly for
weight < 125. -/
theorem C6_weight_class_thresholds (w : ℤ) :
    (get_weight_class w = .ok "HEAVYWEIGHT" ↔ 203 ≤ w) ∧
    (get_weight_class w = .ok "MIDDLEWEIGHT" ↔ 166 ≤ w ∧ w < 203) ∧
    (get_weight_class w = .ok "LIGHTWEIGHT" ↔ 133 ≤ w ∧ w < 166) ∧
    (get_weight_class w = .ok "FEATHERWEIGHT" ↔ 125 ≤ w ∧ w < 133) ∧
    ((∃ msg, get_weight_class w = .error (.valueError msg)) ↔ w < 125) := by
  unfold get_weight_class
  split_ifs with h1 h2 h3 h4 <;> simp_all <;> omega

/-- Claim C7: stat updates.  With the boxer present, a "win" bumps both
fights and wins of that boxer's row, a "loss" bumps only fights; any other
outcome string raises the invalid-result `ValueError`; a valid outcome with
an absent id raises the not-found `ValueError`.  In both failure branches
the raise happens before any `UPDATE`, so the caller's store is untouched. -/
theorem C7_update_boxer_stats (store : Store) (boxer_id : ℤ) :
    (hasBoxer store boxer_id = true →
      update_boxer_stats store boxer_id "win" =
        .ok (store.map (fun row => if row.id = boxer_id then
          { row with fights := row.fights + 1, wins := row.wins + 1 } else row)) ∧
      update_boxer_stats store boxer_id "loss" =
        .ok (store.map (fun row => if row.id = boxer_id then
          { row with fights := row.fights + 1 } else row))) ∧
    (∀ result : String, result ≠ "win" → result ≠ "loss" →
      update_boxer_stats store boxer_id result =
        .error (.valueError
          ("Invalid result: " ++ result ++ ". Expected \x27win\x27 or \x27loss\x27."))) ∧
    (hasBoxer store boxer_id = false →
      ∀ result : String, result = "win" ∨ result = "loss" →
        update_boxer_stats store boxer_id result =
          .error (.valueError
            ("Boxer with ID " ++ toString boxer_id ++ " not found."))) := by
  refine ⟨fun h => ⟨?_, ?_⟩, fun result h1 h2 => ?_, fun h result hr => ?_⟩
  · simp [update_boxer_stats, h, bumpWin]
  · simp [update_boxer_stats, h, bumpLoss]
  · simp [update_boxer_stats, h1, h2]
  · rcases hr with hr | hr <;> subst hr <;> simp [update_boxer_stats, h]

/-- Witness for C7 at the demo store: id 1 is present, a win bumps Ali's row
to 4 fights and 3 wins, an unknown outcome and an absent id both raise. -/
theorem C7_update_boxer_stats_witness :
    hasBoxer demoStore 1 = true ∧
    update_boxer_stats demoStore 1 "win" =
      .ok (demoStore.map (fun row => if row.id = 1 then
        { row with fights := row.fights + 1, wins := row.wins + 1 } else row)) ∧
    update_boxer_stats demoStore 1 "draw" =
      .error (.valueError "Invalid result: draw. Expected \x27win\x27 or \x27loss\x27.") ∧
    update_boxer_stats demoStore 3 "win" =
      .error (.valueError "Boxer with ID 3 not found.") := by
  refine ⟨by decide, ((C7_update_boxer_stats demoStore 1).1 (by decide)).1, ?_, ?_⟩
  · exact ((C7_update_boxer_stats demoStore 1).2.1 "draw" (by decide) (by decide))
  · exact ((C7_update_boxer_stats demoStore 3).2.2 (by decide) "win" (Or.inl rfl))

/-- Claim C8: ring capacity.  Entering a ring with fewer than two occupants
appends and keeps the occupant count at most two; entering a full ring
raises the `ValueError` (the spec's CapacityError) with the ring unchanged
(the raise precedes the append); `fight` on fewer than two occupants raises
the precondition `ValueError` with store and ring unchanged. -/
theorem C8_ring_capacity (ring : List Boxer) (b : Boxer) :
    (ring.length < 2 →
      enter_ring ring b = .ok (ring ++ [b]) ∧ (ring ++ [b]).length ≤ 2) ∧
    (2 ≤ ring.length →
      enter_ring ring b = .error (.valueError "Ring is full, cannot add more boxers.")) ∧
    (∀ ring2, enter_ring ring b = .ok ring2 → ring2.length ≤ 2) ∧
    (∀ (store : Store) (rng : Except PyError ℚ), ring.length < 2 →
      fight ring store rng =
        (.error (.valueError "There must be two boxers to start a fight."), store, ring)) := by
  refine ⟨fun h => ⟨?_, ?_⟩, fun h => ?_, fun ring2 h2 => ?_, fun store rng h => ?_⟩
  · simp [enter_ring, Nat.not_le.mpr h]
  · simp only [List.length_append, List.length_singleton]
    omega
  · simp [enter_ring, h]
  · unfold enter_ring at h2
    by_cases h : 2 ≤ ring.length
    · simp [h] at h2
    · simp [h] at h2
      subst h2
      simp
      omega
  · unfold fight
    rw [if_pos h]

/-- Witness for C8: entering the two-boxer ring [Ali, Tyson] raises the
capacity error, and fighting with only Ali seated raises the precondition
error leaving store and ring unchanged. -/
theorem C8_ring_capacity_witness :
    enter_ring [aliB, tysonB] bobB =
      .error (.valueError "Ring is full, cannot add more boxers.") ∧
    fight [aliB] demoStore (.ok (1/2)) =
      (.error (.valueError "There must be two boxers to start a fight."),
       demoStore, [aliB]) := by
  refine ⟨(C8_ring_capacity [aliB, tysonB] bobB).2.1 (by decide), ?_⟩
  exact (C8_ring_capacity [aliB] aliB).2.2.2 demoStore (.ok (1/2)) (by decide)

/-- Record updates of the stat `UPDATE` statements do not change the id
column. -/
theorem bumpWin_id (i : ℤ) (row : BoxerRow) : (bumpWin i row).id = row.id := by
  unfold bumpWin
  split <;> rfl

/-- Record updates of the loss `UPDATE` statement do not change the id
column. -/
theorem bumpLoss_id (i : ℤ) (row : BoxerRow) : (bumpLoss i row).id = row.id := by
  unfold bumpLoss
  split <;> rfl

/-- A win update leaves every id lookup unchanged. -/
theorem hasBoxer_map_bumpWin (store : Store) (w i : ℤ) :
    hasBoxer (store.map (bumpWin w)) i = hasBoxer store i := by
  unfold hasBoxer
  rw [List.any_map]
  congr 1
  funext row
  simp [Function.comp, bumpWin_id]

/-- With the boxer present, `update_boxer_stats(id, "win")` succeeds and
bumps that row. -/
theorem update_win_eq {store : Store} {i : ℤ} (h : hasBoxer store i = true) :
    update_boxer_stats store i "win" = .ok (store.map (bumpWin i)) := by
  simp [update_boxer_stats, h]

/-- With the boxer present, `update_boxer_stats(id, "loss")` succeeds and
bumps that row. -/
theorem update_loss_eq {store : Store} {i : ℤ} (h : hasBoxer store i = true) :
    update_boxer_stats store i "loss" = .ok (store.map (bumpLoss i)) := by
  simp [update_boxer_stats, h]

/-- With two boxers seated, a raising random draw propagates unchanged. -/
theorem fight_rng_error (b1 b2 : Boxer) (store : Store) (e : PyError) :
    fight [b1, b2] store (.error e) = (.error e, store, [b1, b2]) := by
  unfold fight
  simp

/-- Resolution of a two-boxer fight with a successful random draw and both
boxers present in the store: the first-seated boxer wins exactly when the
draw is below the logistic probability of the skill delta; the winner's win
update is applied first, then the loser's loss update, the ring is cleared
and the winner's name is returned. -/
theorem fight_resolves (b1 b2 : Boxer) (store : Store) (r : ℚ)
    (h1 : hasBoxer store b1.id = true) (h2 : hasBoxer store b2.id = true) :
    (((r : ℝ) < normalized_delta |get_fighting_skill b1 - get_fighting_skill b2| →
       fight [b1, b2] store (.ok r) =
         (.ok b1.name, (store.map (bumpWin b1.id)).map (bumpLoss b2.id), [])) ∧
     (¬ ((r : ℝ) < normalized_delta |get_fighting_skill b1 - get_fighting_skill b2|) →
       fight [b1, b2] store (.ok r) =
         (.ok b2.name, (store.map (bumpWin b2.id)).map (bumpLoss b1.id), []))) := by
  constructor <;> intro hlt <;> unfold fight <;> simp only [List.length_cons,
    List.length_nil] <;> rw [if_neg (by omega)]
  · rw [if_pos hlt, update_win_eq h1]
    dsimp only
    rw [update_loss_eq (by rw [hasBoxer_map_bumpWin]; exact h2)]
    rfl
  · rw [if_neg hlt, update_win_eq h2]
    dsimp only
    rw [update_loss_eq (by rw [hasBoxer_map_bumpWin]; exact h1)]
    rfl

/-- Claim C1: fight resolution.  For two boxers seated in entry order whose
ids are stored, the win probability is the logistic `1 / (1 + e^(-delta))`
of the absolute skill delta, the first-seated boxer is declared winner
exactly when the single draw `r` is below it (the second boxer otherwise),
the winner's "win" update is applied before the loser's "loss" update, and
the winner's name is returned. -/
theorem C1_fight_resolution (b1 b2 : Boxer) (store : Store) (r : ℚ)
    (h1 : hasBoxer store b1.id = true) (h2 : hasBoxer store b2.id = true) :
    normalized_delta |get_fighting_skill b1 - get_fighting_skill b2| =
      1 / (1 + Real.exp (-((|get_fighting_skill b1 - get_fighting_skill b2| : ℚ) : ℝ))) ∧
    (((r : ℝ) < normalized_delta |get_fighting_skill b1 - get_fighting_skill b2| →
       fight [b1, b2] store (.ok r) =
         (.ok b1.name, (store.map (bumpWin b1.id)).map (bumpLoss b2.id), [])) ∧
     (¬ ((r : ℝ) < normalized_delta |get_fighting_skill b1 - get_fighting_skill b2|) →
       fight [b1, b2] store (.ok r) =
         (.ok b2.name, (store.map (bumpWin b2.id)).map (bumpLoss b1.id), []))) :=
  ⟨rfl, fight_resolves b1 b2 store r h1 h2⟩

/-- The logistic probability at delta 0 is exactly one half. -/
theorem normalized_delta_zero : normalized_delta 0 = 1/2 := by
  unfold normalized_delta
  rw [Rat.cast_zero, neg_zero, Real.exp_zero]
  norm_num

/-- Witness for C1 at equal skills: Ali and Bob have skill 607.4 each, the
draw 1/4 lies below the probability 1/2, and Ali (seated first) wins, with
the demo store receiving his win update then Bob's loss update. -/
theorem C1_fight_resolution_witness :
    hasBoxer demoStore aliB.id = true ∧
    hasBoxer demoStore bobB.id = true ∧
    (((1/4 : ℚ) : ℝ) <
      normalized_delta |get_fighting_skill aliB - get_fighting_skill bobB|) ∧
    fight [aliB, bobB] demoStore (.ok (1/4)) =
      (.ok aliB.name, (demoStore.map (bumpWin aliB.id)).map (bumpLoss bobB.id), []) := by
  have heq : get_fighting_skill aliB = get_fighting_skill bobB := rfl
  have hskill : |get_fighting_skill aliB - get_fighting_skill bobB| = 0 := by
    rw [heq, sub_self, abs_zero]
  have hlt : (((1/4 : ℚ) : ℝ) <
      normalized_delta |get_fighting_skill aliB - get_fighting_skill bobB|) := by
    rw [hskill, normalized_delta_zero]
    norm_num
  exact ⟨by decide, by decide, hlt,
    ((C1_fight_resolution aliB bobB demoStore (1/4) (by decide) (by decide)).2.1 hlt)⟩

/-- Claim C2: a failing random draw aborts the fight.  With two boxers
seated, if `get_random` raises, `fight` propagates exactly that exception,
the store is untouched (both stat updates sit after the draw in the code),
and the ring keeps its occupants; in particular an unparseable body such as
one where `float(...)` fails yields the `ValueError` of `get_random`. -/
theorem C2_random_failure_aborts (b1 b2 : Boxer) (store : Store) :
    (∀ e : PyError, fight [b1, b2] store (.error e) = (.error e, store, [b1, b2])) ∧
    (∀ (fos : String → Option ℚ) (body : String), fos body.trim = none →
      fight [b1, b2] store (get_random fos (.success body)) =
        (.error (.valueError ("Invalid response from random.org: " ++ body.trim)),
         store, [b1, b2])) := by
  constructor
  · intro e
    unfold fight
    simp
  · intro fos body hparse
    unfold get_random
    simp only [hparse]
    unfold fight
    simp

/-- Witness for C2: with the body "abc" and a float conversion that fails on
it, the fight aborts with the parse `ValueError` and the demo store and ring
are unchanged. -/
theorem C2_random_failure_aborts_witness :
    (fun _ : String => (none : Option ℚ)) ("abc".trim) = none ∧
    fight [aliB, tysonB] demoStore
        (get_random (fun _ => none) (.success "abc")) =
      (.error (.valueError ("Invalid response from random.org: " ++ "abc".trim)),
       demoStore, [aliB, tysonB]) :=
  ⟨rfl, (C2_random_failure_aborts aliB tysonB demoStore).2 (fun _ => none) "abc" rfl⟩

/-- Counterexample to claim C3: with age 25 the code's age modifier is 0
(the `-1` branch needs age < 25), so Tyson's skill is 1107.1, not the 1106.1
computed in the spec scenario. -/
theorem C3_cex_tyson_skill :
    get_fighting_skill tysonB = 11071/10 ∧ (11071/10 : ℚ) ≠ 11061/10 := by
  constructor
  · simp only [get_fighting_skill, tysonB]
    rw [show "Tyson".length = 5 from rfl]
    norm_num
  · norm_num

/-- Claim C3 as amended: computeSkill(Ali) = 607.4 as claimed, but
computeSkill(Tyson) = 1107.1 (age 25 gets modifier 0, not -1), so
delta = 499.7; the win probability still exceeds 0.99, and for every draw
below it Ali, the first argument, is declared the winner. -/
theorem C3_amended_ali_tyson_scenario :
    get_fighting_skill aliB = 3037/5 ∧
    get_fighting_skill tysonB = 11071/10 ∧
    |get_fighting_skill aliB - get_fighting_skill tysonB| = 4997/10 ∧
    (99/100 : ℝ) < normalized_delta (4997/10) ∧
    ∀ r : ℚ, ((r : ℝ) < normalized_delta (4997/10)) →
      (fight [aliB, tysonB] demoStore (.ok r)).1 = .ok "Ali" := by
  have h1 : get_fighting_skill aliB = 3037/5 := by
    simp only [get_fighting_skill, aliB]
    rw [show "Ali".length = 3 from rfl]
    norm_num
  have h2 : get_fighting_skill tysonB = 11071/10 := by
    simp only [get_fighting_skill, tysonB]
    rw [show "Tyson".length = 5 from rfl]
    norm_num
  have hd : |get_fighting_skill aliB - get_fighting_skill tysonB| = 4997/10 := by
    rw [h1, h2, show (3037/5 : ℚ) - 11071/10 = -(4997/10) by norm_num, abs_neg,
      abs_of_nonneg (by norm_num)]
  have hnd : (99/100 : ℝ) < normalized_delta (4997/10) := by
    unfold normalized_delta
    rw [show (((4997/10 : ℚ)) : ℝ) = 4997/10 by norm_num]
    have hexp : Real.exp (-(4997/10 : ℝ)) < 1/99 := by
      rw [Real.exp_neg, show (1/99 : ℝ) = ((99 : ℝ))⁻¹ by norm_num]
      have h99 : (99 : ℝ) < Real.exp (4997/10) := by
        have := Real.add_one_le_exp (4997/10 : ℝ)
        linarith
      exact inv_strictAnti₀ (by norm_num) h99
    have hpos : (0:ℝ) < 1 + Real.exp (-(4997/10 : ℝ)) := by positivity
    rw [lt_div_iff₀ hpos]
    nlinarith [Real.exp_pos (-(4997/10 : ℝ))]
  refine ⟨h1, h2, hd, hnd, fun r hr => ?_⟩
  have hfight := (fight_resolves aliB tysonB demoStore r (by decide) (by decide)).1
    (by rw [hd]; exact hr)
  rw [hfight]
  rfl

/-- Witness for the amended C3: the draw 1/2 lies below the win probability
and Ali wins. -/
theorem C3_amended_witness :
    (((1/2 : ℚ) : ℝ) < normalized_delta (4997/10)) ∧
    (fight [aliB, tysonB] demoStore (.ok (1/2))).1 = .ok "Ali" := by
  have h := C3_amended_ali_tyson_scenario
  have hlt : (((1/2 : ℚ) : ℝ)) < normalized_delta (4997/10) :=
    lt_trans (by norm_num) h.2.2.2.1
  exact ⟨hlt, h.2.2.2.2 (1/2) hlt⟩

/-- Counterexample to claim C4: when the random draw raises, the code never
reaches `clear_ring()`, so the ring still holds both boxers, not the empty
list the claim demands on every outcome path. -/
theorem C4_cex_ring_not_cleared_on_error :
    (fight [aliB, tysonB] demoStore
        (.error (.runtimeError "Request to random.org timed out."))).2.2 =
      [aliB, tysonB] ∧
    ([aliB, tysonB] : List Boxer) ≠ ([] : List Boxer) := by
  refine ⟨by rw [fight_rng_error], by simp⟩

/-- Claim C4 as amended: `fight` clears the ring exactly on the successful
path; whenever it raises (precondition failure, random-source failure or a
stat-update failure) the ring keeps its previous occupants. -/
theorem C4_amended_ring_cleared_on_success (ring : List Boxer) (store : Store)
    (rng : Except PyError ℚ) :
    (∀ (name : String) (s2 : Store) (r2 : List Boxer),
      fight ring store rng = (.ok name, s2, r2) → r2 = []) ∧
    (∀ (e : PyError) (s2 : Store) (r2 : List Boxer),
      fight ring store rng = (.error e, s2, r2) → r2 = ring) := by
  constructor
  · intro name s2 r2 h
    unfold fight at h
    split at h
    · simp at h
    · split at h
      · split at h
        · simp at h
        · dsimp only at h
          split at h
          · simp at h
          · split at h
            · simp at h
            · simp only [Prod.mk.injEq] at h
              rw [← h.2.2]
              rfl
      · simp at h
  · intro e s2 r2 h
    unfold fight at h
    split at h
    · simp only [Prod.mk.injEq] at h
      exact h.2.2.symm
    · split at h
      · split at h
        · simp only [Prod.mk.injEq] at h
          exact h.2.2.symm
        · dsimp only at h
          split at h
          · simp only [Prod.mk.injEq] at h
            exact h.2.2.symm
          · split at h
            · simp only [Prod.mk.injEq] at h
              exact h.2.2.symm
            · simp at h
      · simp only [Prod.mk.injEq] at h
        exact h.2.2.symm

/-- Witness for the amended C4: a concrete successful fight (equal skills,
draw 1/4) whose resulting ring is empty. -/
theorem C4_amended_witness :
    fight [aliB, bobB] demoStore (.ok (1/4)) =
      (.ok aliB.name, (demoStore.map (bumpWin aliB.id)).map (bumpLoss bobB.id),
       ([] : List Boxer)) ∧
    ([] : List Boxer) = [] := by
  have heq : get_fighting_skill aliB = get_fighting_skill bobB := rfl
  have hlt : (((1/4 : ℚ) : ℝ)) <
      normalized_delta |get_fighting_skill aliB - get_fighting_skill bobB| := by
    rw [heq, sub_self, abs_zero, normalized_delta_zero]
    norm_num
  have h := (fight_resolves aliB bobB demoStore (1/4) (by decide) (by decide)).1 hlt
  exact ⟨h, (C4_amended_ring_cleared_on_success [aliB, bobB] demoStore
    (.ok (1/4))).1 aliB.name _ [] h⟩

/-- Claim C10: no duplicate check on entry.  The same boxer value can fill
both slots; the fight then has delta 0 and win probability 1/2, succeeds for
every draw with that boxer as both winner and loser, applies one win and one
loss update to the same row (fights + 2, wins + 1), and returns the boxer's
name. -/
theorem C10_same_boxer_both_slots (b : Boxer) (store : Store) (r : ℚ)
    (h : hasBoxer store b.id = true) :
    enter_ring [] b = .ok [b] ∧
    enter_ring [b] b = .ok [b, b] ∧
    |get_fighting_skill b - get_fighting_skill b| = 0 ∧
    normalized_delta 0 = 1/2 ∧
    fight [b, b] store (.ok r) =
      (.ok b.name,
       store.map (fun row => if row.id = b.id then
         { row with fights := row.fights + 2, wins := row.wins + 1 } else row),
       []) := by
  have hmap : (store.map (bumpWin b.id)).map (bumpLoss b.id) =
      store.map (fun row => if row.id = b.id then
        { row with fights := row.fights + 2, wins := row.wins + 1 } else row) := by
    rw [List.map_map]
    congr 1
    funext row
    rcases row with ⟨i, nm, w, ht, rc, ag, f, wn⟩
    by_cases hid : i = b.id
    · simp [Function.comp, bumpWin, bumpLoss, hid]
      omega
    · simp [Function.comp, bumpWin, bumpLoss, hid]
  refine ⟨by simp [enter_ring], by simp [enter_ring], by rw [sub_self, abs_zero],
    normalized_delta_zero, ?_⟩
  by_cases hlt : ((r : ℝ)) < normalized_delta |get_fighting_skill b - get_fighting_skill b|
  · rw [(fight_resolves b b store r h h).1 hlt, hmap]
  · rw [(fight_resolves b b store r h h).2 hlt, hmap]

/-- Witness for C10: Ali fights himself on the demo store with draw 7/10;
his row gains two fights and one win and his name is returned. -/
theorem C10_same_boxer_both_slots_witness :
    hasBoxer demoStore aliB.id = true ∧
    fight [aliB, aliB] demoStore (.ok (7/10)) =
      (.ok aliB.name,
       demoStore.map (fun row => if row.id = aliB.id then
         { row with fights := row.fights + 2, wins := row.wins + 1 } else row),
       []) :=
  ⟨by decide, (C10_same_boxer_both_slots aliB demoStore (7/10) (by decide)).2.2.2.2⟩

/-- Counterexample to claim C5: a timeout and another transport failure do
not yield distinct error kinds — `get_random` raises `RuntimeError` for
both, so a caller matching on exception class cannot tell them apart. -/
theorem C5_cex_shared_error_class :
    get_random (fun _ => none) .timeout =
      .error (.runtimeError "Request to random.org timed out.") ∧
    get_random (fun _ => none) (.requestError "connection refused") =
      .error (.runtimeError "Request to random.org failed: connection refused") ∧
    PyError.className (.runtimeError "Request to random.org timed out.") =
      PyError.className
        (.runtimeError "Request to random.org failed: connection refused") :=
  ⟨rfl, rfl, rfl⟩

/-- Claim C5 as amended: a timeout raises `RuntimeError` with a fixed
timed-out message, any other transport failure raises `RuntimeError` with a
message extending the failed prefix, and an unparseable body raises
`ValueError`; the parse failure is a distinct exception class, while the
timeout and transport conditions share the `RuntimeError` class and are
distinguishable only by their (always different) messages. -/
theorem C5_amended_error_kinds (fos : String → Option ℚ) :
    get_random fos .timeout =
      .error (.runtimeError "Request to random.org timed out.") ∧
    (∀ e : String, get_random fos (.requestError e) =
      .error (.runtimeError ("Request to random.org failed: " ++ e))) ∧
    (∀ body : String, fos body.trim = none →
      get_random fos (.success body) =
        .error (.valueError ("Invalid response from random.org: " ++ body.trim))) ∧
    (∀ m m2 : String,
      PyError.className (.valueError m) ≠ PyError.className (.runtimeError m2)) ∧
    (∀ e : String,
      "Request to random.org timed out." ≠ "Request to random.org failed: " ++ e) := by
  refine ⟨rfl, fun e => rfl, fun body hparse => ?_, fun m m2 => ?_, fun e h => ?_⟩
  · unfold get_random
    simp only [hparse]
  · simp [PyError.className]
  · have hd : ("Request to random.org timed out.").data =
        ("Request to random.org failed: ").data ++ e.data := by
      rw [h]
      exact String.data_append _ _
    have h30 : ("Request to random.org timed out.").data.take 30 =
        ("Request to random.org failed: ").data := by
      rw [hd]
      exact List.take_left' rfl
    exact absurd h30 (by decide)

/-- Witness for the amended C5: the body "abc" with a float conversion that
rejects it yields the parse `ValueError`. -/
theorem C5_amended_error_kinds_witness :
    (fun _ : String => (none : Option ℚ)) ("abc".trim) = none ∧
    get_random (fun _ => none) (.success "abc") =
      .error (.valueError ("Invalid response from random.org: " ++ "abc".trim)) :=
  ⟨rfl, (C5_amended_error_kinds (fun _ => none)).2.2.1 "abc" rfl⟩

/-- The weight-class threshold table as a total function, agreeing with
`get_weight_class` on every valid weight. -/
def weightClassTotal (w : ℤ) : String :=
  if 203 ≤ w then "HEAVYWEIGHT"
  else if 166 ≤ w then "MIDDLEWEIGHT"
  else if 133 ≤ w then "LIGHTWEIGHT"
  else "FEATHERWEIGHT"

/-- On valid weights the partial and total weight-class functions agree. -/
theorem get_weight_class_of_valid {w : ℤ} (h : 125 ≤ w) :
    get_weight_class w = .ok (weightClassTotal w) := by
  unfold get_weight_class weightClassTotal
  split_ifs <;> first | rfl | omega

/-- The leaderboard dictionary of a valid row, as a total function. -/
def lbRowEntry (row : BoxerRow) : LBEntry :=
  ⟨row.id, row.name, row.weight, row.height, row.reach, row.age,
   weightClassTotal row.weight, row.fights, row.wins,
   round1 (win_pct_exact row * 100)⟩

/-- On a valid row the dictionary construction succeeds. -/
theorem mkLBEntry_of_valid {row : BoxerRow} (h : 125 ≤ row.weight) :
    mkLBEntry row = .ok (lbRowEntry row) := by
  unfold mkLBEntry lbRowEntry
  rw [get_weight_class_of_valid h]
  rfl

/-- Building all dictionaries of a list of valid rows succeeds row by
row. -/
theorem mapM_mkLBEntry {rows : List BoxerRow}
    (h : ∀ row ∈ rows, 125 ≤ row.weight) :
    rows.mapM mkLBEntry = .ok (rows.map lbRowEntry) := by
  induction rows with
  | nil => rfl
  | cons a l ih =>
    rw [List.mapM_cons, mkLBEntry_of_valid (h a (List.mem_cons_self a l)),
      ih (fun row hr => h row (List.mem_cons_of_mem a hr))]
    rfl

/-- Claim C9: the leaderboard.  For a store of valid rows and a `sort_by`
in {"wins", "win_pct"}, the result is exactly the rows with fights > 0,
in an order descending in the chosen key, each reported with
`win_pct = round(wins / fights * 100, 1)`; any other `sort_by` raises the
`ValueError` (the spec's ValidationError) before touching the store. -/
theorem C9_leaderboard (store : Store) (sort_by : String)
    (hvalid : ∀ row ∈ store, 125 ≤ row.weight) :
    (∀ row : BoxerRow,
      (lbRowEntry row).win_pct = round1 (row.wins / row.fights * 100)) ∧
    ((sort_by = "wins" ∨ sort_by = "win_pct") →
      ∃ rows : List BoxerRow,
        rows.Perm (store.filter (fun r => 0 < r.fights)) ∧
        rows.Pairwise (fun a b => lbKey sort_by b ≤ lbKey sort_by a) ∧
        get_leaderboard store sort_by = .ok (rows.map lbRowEntry)) ∧
    (sort_by ≠ "wins" → sort_by ≠ "win_pct" →
      get_leaderboard store sort_by =
        .error (.valueError ("Invalid sort_by parameter: " ++ sort_by))) := by
  refine ⟨fun row => rfl, fun hs => ?_, fun h1 h2 => ?_⟩
  · refine ⟨(store.filter (fun r => 0 < r.fights)).mergeSort
      (fun a b => decide (lbKey sort_by b ≤ lbKey sort_by a)),
      List.mergeSort_perm _ _, ?_, ?_⟩
    · have hp := @List.sorted_mergeSort _
        (fun a b => decide (lbKey sort_by b ≤ lbKey sort_by a))
        (fun a b c hab hbc => by
          simp only [decide_eq_true_eq] at hab hbc ⊢
          exact le_trans hbc hab)
        (fun a b => by
          simp only [Bool.or_eq_true, decide_eq_true_eq]
          exact le_total (lbKey sort_by b) (lbKey sort_by a))
        (store.filter (fun r => 0 < r.fights))
      exact hp.imp (fun hab => of_decide_eq_true hab)
    · unfold get_leaderboard
      rcases hs with hs | hs <;> subst hs
      · rw [if_neg (by simp)]
        exact mapM_mkLBEntry (fun row hr =>
          hvalid row (List.mem_of_mem_filter (List.mem_mergeSort.mp hr)))
      · rw [if_neg (by simp)]
        exact mapM_mkLBEntry (fun row hr =>
          hvalid row (List.mem_of_mem_filter (List.mem_mergeSort.mp hr)))
  · unfold get_leaderboard
    rw [if_pos ⟨h2, h1⟩]

/-- A row with no fights yet, used to witness the fights > 0 filter. -/
def noviceRow : BoxerRow := ⟨3, "Kid", 130, 65, 68, 19, 0, 0⟩

/-- Witness for C9 on a store with a zero-fight row: the demo rows are
valid and the sorted, filtered leaderboard exists for sort key "wins". -/
theorem C9_leaderboard_witness :
    (∀ row ∈ ([aliRow, tysonRow, noviceRow] : Store), 125 ≤ row.weight) ∧
    (∃ rows : List BoxerRow,
      rows.Perm (([aliRow, tysonRow, noviceRow] : Store).filter
        (fun r => 0 < r.fights)) ∧
      rows.Pairwise (fun a b => lbKey "wins" b ≤ lbKey "wins" a) ∧
      get_leaderboard [aliRow, tysonRow, noviceRow] "wins" =
        .ok (rows.map lbRowEntry)) := by
  have hvalid : ∀ row ∈ ([aliRow, tysonRow, noviceRow] : Store), 125 ≤ row.weight := by
    decide
  exact ⟨hvalid,
    (C9_leaderboard [aliRow, tysonRow, noviceRow] "wins" hvalid).2.1 (Or.inl rfl)⟩

end Boxing
